import Mathlib

/-!
Verification of the validation and data-integrity layer of the shop schema
(src/shop/models.py): field validators, derived order-item cost, and the
declared storage constraints (uniqueness, cascade delete, non-editable
fields, status choices).
-/

namespace Shop

/-- A validation failure as raised by the source's `ValidationError(message, code=...)`:
a human-readable message together with a stable machine code. -/
structure ValidationError where
  message : String
  code : String
deriving DecidableEq

def usernameLengthError : ValidationError :=
  ⟨"Username should be between 3 and 20 characters.", "invalid_username_length"⟩

def phoneError : ValidationError :=
  ⟨"Phone number should contain numeric characters.", "invalid_phone_number"⟩

def passwordNumericError : ValidationError :=
  ⟨"Password should contain at least one numeric character.", "invalid_password_numeric"⟩

def passwordAlphabetError : ValidationError :=
  ⟨"Password should contain at least one alphabet character.", "invalid_password_alphabet"⟩

def passwordSpecialError : ValidationError :=
  ⟨"Password should contain at least one special character.", "invalid_password_special"⟩

/-- `validate_username` from src/shop/models.py: raises `invalid_username_length`
when `len(value) < 3 or len(value) > 20`, and returns silently otherwise.
Python's `len` counts code points, as does `String.length`. -/
def validate_username (value : String) : Except ValidationError Unit :=
  if value.length < 3 ∨ value.length > 20 then
    .error usernameLengthError
  else
    .ok ()

/-- A nonempty run of ASCII digits: the language of the regex fragment `[0-9]+`
over a whole character list. -/
def digits1 (cs : List Char) : Bool :=
  !cs.isEmpty && cs.all (fun c => c.isDigit)

/-- Python `re.match("^[0-9]+$", value)` as a predicate on the whole string.
`re.match` anchors at the start; `[0-9]+` consumes a nonempty digit run; `$` in
Python matches at the end of the string OR just before a newline that ends the
string. Hence the pattern matches exactly the nonempty digit strings and the
nonempty digit strings followed by one final newline. -/
def pyMatchAllDigits (value : String) : Bool :=
  digits1 value.data ||
    (decide (value.data.getLast? = some '\n') && digits1 value.data.dropLast)

/-- `validate_phone_number` from src/shop/models.py: raises
`invalid_phone_number` when `re.match("^[0-9]+$", value)` finds no match. -/
def validate_phone_number (value : String) : Except ValidationError Unit :=
  if pyMatchAllDigits value then
    .ok ()
  else
    .error phoneError

/-- The character class of the source regex `[!@#$%^&*(),.?":\x7b\x7d|<>]`
in `validate_password`. -/
def specialChars : List Char :=
  ['!', '@', '#', '$', '%', '^', '&', '*', '(', ')', ',', '.', '?', '\"',
   ':', '\x7b', '\x7d', '|', '<', '>']

/-- `validate_password` from src/shop/models.py. The source performs three
checks in sequence, each raising on failure, so a raise from an earlier check
aborts the call before the later checks run; this is the if/else-if chain below.
`re.search(r"\d", value)` is modelled by an ASCII-digit search (Python's `\d`
is the Unicode decimal digits, of which the passwords this schema handles use
the ASCII range); `[a-zA-Z]` is exactly `Char.isAlpha`. -/
def validate_password (value : String) : Except ValidationError Unit :=
  if !value.data.any (fun c => c.isDigit) then
    .error passwordNumericError
  else if !value.data.any (fun c => c.isAlpha) then
    .error passwordAlphabetError
  else if !value.data.any (fun c => specialChars.contains c) then
    .error passwordSpecialError
  else
    .ok ()

/-- The error codes a single call to `validate_password` reports: the empty
list on success, and the code of the raised error on failure (a raise aborts
the call, so at most one code is ever reported per call). -/
def passwordCodesReported (value : String) : List String :=
  match validate_password value with
  | .ok _ => []
  | .error e => [e.code]

/-- A `Category` record from src/shop/models.py: a single name field
(`CharField(max_length=100, unique=True)`). -/
structure Category where
  name : String
deriving DecidableEq

/-- Django's uniqueness violation for Category.name (code "unique"). -/
def categoryUniqueError : ValidationError :=
  ⟨"Category with this Name already exists.", "unique"⟩

/-- Modelled from the spec: the enforcement of `unique=True` on
`Category.name` is framework/storage behavior not present in src/. Per the
spec, creating a Category checks the name against the already-stored
categories at write time and rejects a duplicate with a uniqueness violation,
leaving the store unchanged; otherwise the record is appended. -/
def createCategory (cats : List Category) (c : Category) :
    List Category × Option ValidationError :=
  if cats.any (fun c0 => c0.name == c.name) then
    (cats, some categoryUniqueError)
  else
    (cats ++ [c], none)

/-- A `Product` record from src/shop/models.py. `DecimalField` values are
exact decimals, modelled in `ℚ`; `seller` is the id of the referenced Seller
(`ForeignKey(Seller, on_delete=models.CASCADE)`); the many-to-many category
relation is the list of referenced Category ids. -/
structure Product where
  title : String
  price : ℚ
  category : List Nat
  description : String
  quantity : Nat
  satisfaction_percentage : ℚ
  seller : Nat
deriving DecidableEq

/-- The status choices of `Order.status` from src/shop/models.py
(`STATUS_CHOICES`): six values, listed with their stored two-letter codes in
`OrderStatus.dbValue` and display labels in `OrderStatus.label` (the source
spells the last label "Recieved"). -/
inductive OrderStatus where
  | Canceled
  | Pending
  | Completed
  | Processing
  | Sent
  | Recieved
deriving DecidableEq

/-- The stored database value of each status choice. -/
def OrderStatus.dbValue : OrderStatus → String
  | .Canceled => "Ca"
  | .Pending => "Pn"
  | .Completed => "Co"
  | .Processing => "P"
  | .Sent => "S"
  | .Recieved => "R"

/-- The display label of each status choice, exactly as in the source. -/
def OrderStatus.label : OrderStatus → String
  | .Canceled => "Canceled"
  | .Pending => "Pending"
  | .Completed => "Completed"
  | .Processing => "Processing"
  | .Sent => "Sent"
  | .Recieved => "Recieved"

/-- All status choices, in source order. -/
def allStatuses : List OrderStatus :=
  [.Canceled, .Pending, .Completed, .Processing, .Sent, .Recieved]

/-- The declared default of `Order.status` is the stored value "Pn",
i.e. Pending. -/
def orderDefaultStatus : OrderStatus := .Pending

/-- An `Order` record from src/shop/models.py (timestamps are
system-managed and irrelevant to the claims; `customer` is the id of the
referenced Customer). -/
structure Order where
  customer : Nat
  total_cost : ℚ
  status : OrderStatus
deriving DecidableEq

/-- Modelled from the spec: `Order.status` is a plain `CharField` with
choices and no transition validation anywhere in src/, so an update simply
stores the requested status value, whatever the current one is. -/
def setStatus (o : Order) (s : OrderStatus) : Order :=
  { o with status := s }

/-- An `OrderItem` record from src/shop/models.py. The `product` field holds
the dereferenced product when the reference is present (`if self.product`
in the source distinguishes the two cases). -/
structure OrderItem where
  order : Nat
  product : Option Product
  quantity : Nat

/-- `OrderItem.itemCost` from src/shop/models.py:
`float(self.quantity * self.product.price) if self.product else 0.00`.
`quantity * price` is an exact `Decimal` product, modelled exactly in `ℚ`. -/
def OrderItem.itemCost (it : OrderItem) : ℚ :=
  match it.product with
  | some p => it.quantity * p.price
  | none => 0

/-- A `Customer` record from src/shop/models.py (field order as in the
source; `postal_code` is an `IntegerField`). -/
structure Customer where
  first_name : String
  last_name : String
  username : String
  phone : String
  email : String
  password : String
  address : String
  postal_code : Int
deriving DecidableEq

/-- The editable fields of a Customer: every field except `username`, which
is declared `editable=False` in the source. -/
structure CustomerUpdate where
  first_name : String
  last_name : String
  phone : String
  email : String
  password : String
  address : String
  postal_code : Int

/-- Modelled from the spec: `username` is declared `editable=False`, so a
storage update writes the submitted values of the editable fields and keeps
the stored username; only creation sets it. -/
def updateCustomer (c : Customer) (u : CustomerUpdate) : Customer :=
  { first_name := u.first_name
    last_name := u.last_name
    username := c.username
    phone := u.phone
    email := u.email
    password := u.password
    address := u.address
    postal_code := u.postal_code }

/-- The slice of the store the cascade-delete claims range over: seller ids,
products as (product id, seller id) pairs, and order items as
(order-item id, product id) pairs. -/
structure Store where
  sellers : List Nat
  products : List (Nat × Nat)
  orderItems : List (Nat × Nat)

/-- Modelled from the spec: `on_delete=models.CASCADE` on `Product.seller`
and `OrderItem.product` is framework/database behavior not present in src/.
Deleting a seller removes the seller, every product whose seller reference is
that seller, and transitively every order item whose product reference is one
of the removed products. -/
def deleteSeller (st : Store) (sid : Nat) : Store :=
  let removedProductIds := (st.products.filter (fun p => p.2 == sid)).map Prod.fst
  { sellers := st.sellers.filter (fun x => x != sid)
    products := st.products.filter (fun p => p.2 != sid)
    orderItems := st.orderItems.filter (fun it => !removedProductIds.contains it.2) }

/-! ## Theorems -/

/-- C3: for every string of length strictly less than 3 or strictly greater
than 20, `validate_username` fails with code `invalid_username_length`, and
for every string of length in [3,20] it succeeds (raises no error). -/
theorem validate_username_length_spec :
    (∀ s : String, s.length < 3 ∨ s.length > 20 →
      validate_username s = .error usernameLengthError) ∧
    (∀ s : String, 3 ≤ s.length ∧ s.length ≤ 20 →
      validate_username s = .ok ()) := by
  constructor
  · intro s h
    simp [validate_username, h]
  · intro s h
    have hno : ¬ (s.length < 3 ∨ s.length > 20) := by omega
    simp [validate_username, hno]

/-- Witness for C3: `validate_username` rejects "ab" (length 2) and accepts
"abc" (length 3). -/
theorem validate_username_length_witness :
    validate_username "ab" = .error usernameLengthError ∧
    validate_username "abc" = .ok () :=
  ⟨validate_username_length_spec.1 "ab" (by decide),
   validate_username_length_spec.2 "abc" (by decide)⟩

/-- C10: `validate_phone_number` rejects the empty string with code
`invalid_phone_number`, because `^[0-9]+$` requires at least one digit. -/
theorem validate_phone_number_empty :
    validate_phone_number "" = .error phoneError := by
  rfl

/-- C2 counterexample: the string "0\n" contains a non-digit character (the
newline), yet `validate_phone_number "0\n"` succeeds, because Python's `$`
also matches just before a newline that ends the string. -/
theorem validate_phone_number_counterexample :
    ('\n' ∈ ("0\n" : String).data ∧ '\n'.isDigit = false) ∧
    validate_phone_number "0\n" = .ok () := by
  constructor
  · decide
  · rfl

/-- C2 (amended): for every string containing at least one non-digit
character, `validate_phone_number` fails with code `invalid_phone_number`
unless the string is a nonempty digit run followed by a single trailing
newline (which Python's `$` accepts); `validate_phone_number "01234"`
succeeds and `validate_phone_number "012a4"` fails. -/
theorem validate_phone_number_spec :
    (∀ s : String, (∃ c ∈ s.data, c.isDigit = false) →
      ¬ (s.data.getLast? = some '\n' ∧ digits1 s.data.dropLast = true) →
      validate_phone_number s = .error phoneError) ∧
    validate_phone_number "01234" = .ok () ∧
    validate_phone_number "012a4" = .error phoneError := by
  refine ⟨?_, by rfl, by rfl⟩
  intro s h1 h2
  obtain ⟨c, hc, hcd⟩ := h1
  have hall : s.data.all (fun c => c.isDigit) = false := by
    rw [Bool.eq_false_iff]
    intro hAll
    rw [List.all_eq_true] at hAll
    rw [hAll c hc] at hcd
    exact Bool.noConfusion hcd
  have hd1 : digits1 s.data = false := by
    simp [digits1, hall]
  have hmatch : pyMatchAllDigits s = false := by
    unfold pyMatchAllDigits
    rw [hd1, Bool.false_or]
    rcases hB : digits1 s.data.dropLast with _ | _
    · simp
    · have hA : ¬ s.data.getLast? = some '\n' := fun hA => h2 ⟨hA, hB⟩
      simp [hA]
  simp [validate_phone_number, hmatch]

/-- Witness for C2 (amended): the universal part applied at "012a4". -/
theorem validate_phone_number_spec_witness :
    validate_phone_number "012a4" = .error phoneError :=
  validate_phone_number_spec.1 "012a4" (by decide) (by decide)

/-- C1 counterexample: `validate_password "alllower"` reports exactly one
failure, `invalid_password_numeric`; `invalid_password_special` is not
among the codes reported by that call, refuting the claim that both are
raised as two distinct failures. -/
theorem validate_password_counterexample :
    passwordCodesReported "alllower" = ["invalid_password_numeric"] ∧
    "invalid_password_special" ∉ passwordCodesReported "alllower" := by
  constructor
  · rfl
  · intro h
    rw [show passwordCodesReported "alllower" = ["invalid_password_numeric"] from rfl] at h
    simp at h

/-- C1 (amended): `validate_password` short-circuits. For every string
containing no digit — such as "alllower", which also lacks a special
character — the call raises `invalid_password_numeric` and stops; the
special-character check never runs, so only that single failure is
reported. -/
theorem validate_password_short_circuit (s : String)
    (h : ∀ c ∈ s.data, c.isDigit = false) :
    validate_password s = .error passwordNumericError ∧
    passwordCodesReported s = ["invalid_password_numeric"] := by
  have hany : s.data.any (fun c => c.isDigit) = false := by
    rw [Bool.eq_false_iff]
    intro hAny
    obtain ⟨c, hc, hcd⟩ := List.any_eq_true.mp hAny
    rw [h c hc] at hcd
    exact Bool.noConfusion hcd
  have hv : validate_password s = .error passwordNumericError := by
    simp [validate_password, hany]
  refine ⟨hv, ?_⟩
  unfold passwordCodesReported
  rw [hv]
  rfl

/-- Witness for C1 (amended): applied at "alllower". -/
theorem validate_password_short_circuit_witness :
    validate_password "alllower" = .error passwordNumericError ∧
    passwordCodesReported "alllower" = ["invalid_password_numeric"] :=
  validate_password_short_circuit "alllower" (by decide)

/-- C4: for every string containing at least one ASCII digit, at least one
ASCII letter, and at least one character of the fixed special set,
`validate_password` succeeds; in particular it accepts "Password1!". -/
theorem validate_password_success_spec :
    (∀ s : String,
      (∃ c ∈ s.data, c.isDigit = true) →
      (∃ c ∈ s.data, c.isAlpha = true) →
      (∃ c ∈ s.data, c ∈ specialChars) →
      validate_password s = .ok ()) ∧
    validate_password "Password1!" = .ok () := by
  refine ⟨?_, by rfl⟩
  intro s h1 h2 h3
  obtain ⟨c1, hc1, hd1⟩ := h1
  obtain ⟨c2, hc2, hd2⟩ := h2
  obtain ⟨c3, hc3, hd3⟩ := h3
  have a1 : s.data.any (fun c => c.isDigit) = true :=
    List.any_eq_true.mpr ⟨c1, hc1, hd1⟩
  have a2 : s.data.any (fun c => c.isAlpha) = true :=
    List.any_eq_true.mpr ⟨c2, hc2, hd2⟩
  have a3 : s.data.any (fun c => specialChars.contains c) = true :=
    List.any_eq_true.mpr ⟨c3, hc3, by simpa using hd3⟩
  simp [validate_password, a1, a2, a3]
  exact ⟨c3, hc3, hd3⟩

/-- Witness for C4: applied at "Password1!". -/
theorem validate_password_success_witness :
    validate_password "Password1!" = .ok () :=
  validate_password_success_spec.1 "Password1!" (by decide) (by decide) (by decide)

/-- C5: for every OrderItem with a present product reference, `itemCost`
equals quantity × product.price — for quantity 3 and price 19.99 that is
59.97 — and for an absent product reference, `itemCost` equals 0. -/
theorem orderItem_itemCost_spec :
    (∀ (it : OrderItem) (p : Product), it.product = some p →
      it.itemCost = it.quantity * p.price) ∧
    (∀ (it : OrderItem) (p : Product), it.product = some p →
      it.quantity = 3 → p.price = 1999 / 100 → it.itemCost = 5997 / 100) ∧
    (∀ it : OrderItem, it.product = none → it.itemCost = 0) := by
  refine ⟨?_, ?_, ?_⟩
  · intro it p h
    simp [OrderItem.itemCost, h]
  · intro it p h hq hp
    simp [OrderItem.itemCost, h, hq, hp]
    norm_num
  · intro it h
    simp [OrderItem.itemCost, h]

/-- A concrete product priced 19.99 owned by seller 1. -/
def sampleProduct : Product :=
  { title := "Laptop", price := 1999 / 100, category := [], description := "",
    quantity := 1, satisfaction_percentage := 0, seller := 1 }

/-- Witness for C5: an order item of quantity 3 over `sampleProduct` costs
59.97, and one with no product reference costs 0. -/
theorem orderItem_itemCost_witness :
    OrderItem.itemCost ⟨1, some sampleProduct, 3⟩ = 5997 / 100 ∧
    OrderItem.itemCost ⟨1, none, 3⟩ = 0 :=
  ⟨orderItem_itemCost_spec.2.1 ⟨1, some sampleProduct, 3⟩ sampleProduct rfl rfl rfl,
   orderItem_itemCost_spec.2.2 ⟨1, none, 3⟩ rfl⟩

/-- C6: when the store already holds a Category with the requested name,
creating another Category with that name fails with the uniqueness
violation and the stored list of categories is returned unchanged. -/
theorem category_name_unique_spec (cats : List Category) (c : Category)
    (h : ∃ c0 ∈ cats, c0.name = c.name) :
    createCategory cats c = (cats, some categoryUniqueError) := by
  obtain ⟨c0, hc0, hname⟩ := h
  have hany : cats.any (fun x => x.name == c.name) = true :=
    List.any_eq_true.mpr ⟨c0, hc0, by simp [hname]⟩
  simp [createCategory, hany]

/-- Witness for C6: a second "Electronics" category is rejected and the
store keeps exactly the first one. -/
theorem category_name_unique_witness :
    createCategory [Category.mk "Electronics"] (Category.mk "Electronics") =
      ([Category.mk "Electronics"], some categoryUniqueError) :=
  category_name_unique_spec [Category.mk "Electronics"] (Category.mk "Electronics")
    (by decide)

/-- C7: after deleting a seller, the seller is gone, no stored product
references that seller, every remaining order item still references a stored
product (given that this held beforehand), and every remaining product still
references a stored seller (given that this held beforehand) — no orphaned
references. -/
theorem deleteSeller_no_orphans (st : Store) (sid : Nat)
    (hwf : ∀ it ∈ st.orderItems, ∃ p ∈ st.products, p.1 = it.2) :
    (∀ x ∈ (deleteSeller st sid).sellers, x ≠ sid) ∧
    (∀ p ∈ (deleteSeller st sid).products, p.2 ≠ sid) ∧
    (∀ it ∈ (deleteSeller st sid).orderItems,
      ∃ p ∈ (deleteSeller st sid).products, p.1 = it.2) ∧
    ((∀ p ∈ st.products, p.2 ∈ st.sellers) →
      ∀ p ∈ (deleteSeller st sid).products, p.2 ∈ (deleteSeller st sid).sellers) := by
  refine ⟨?_, ?_, ?_, ?_⟩
  · intro x hx
    simp only [deleteSeller, List.mem_filter] at hx
    simpa using hx.2
  · intro p hp
    simp only [deleteSeller, List.mem_filter] at hp
    simpa using hp.2
  · intro it hit
    simp only [deleteSeller, List.mem_filter] at hit ⊢
    obtain ⟨hmem, hkeep⟩ := hit
    obtain ⟨p, hp, hpid⟩ := hwf it hmem
    have hpsid : p.2 ≠ sid := by
      intro hEq
      have hrem : it.2 ∈ (st.products.filter (fun q => q.2 == sid)).map Prod.fst :=
        List.mem_map.mpr ⟨p, List.mem_filter.mpr ⟨hp, by simp [hEq]⟩, hpid⟩
      simp [hrem] at hkeep
    exact ⟨p, ⟨hp, by simpa using hpsid⟩, hpid⟩
  · intro hws p hp
    simp only [deleteSeller, List.mem_filter] at hp ⊢
    exact ⟨hws p hp.1, hp.2⟩

/-- Witness for C7: deleting seller 1 from a store with two sellers, two
products and two order items removes product 10 and order item 100 and
leaves no orphaned reference. -/
theorem deleteSeller_no_orphans_witness :
    (∀ x ∈ (deleteSeller ⟨[1, 2], [(10, 1), (11, 2)], [(100, 10), (101, 11)]⟩ 1).sellers,
      x ≠ 1) ∧
    (∀ p ∈ (deleteSeller ⟨[1, 2], [(10, 1), (11, 2)], [(100, 10), (101, 11)]⟩ 1).products,
      p.2 ≠ 1) ∧
    (∀ it ∈ (deleteSeller ⟨[1, 2], [(10, 1), (11, 2)], [(100, 10), (101, 11)]⟩ 1).orderItems,
      ∃ p ∈ (deleteSeller ⟨[1, 2], [(10, 1), (11, 2)], [(100, 10), (101, 11)]⟩ 1).products,
        p.1 = it.2) ∧
    ((∀ p ∈ (Store.mk [1, 2] [(10, 1), (11, 2)] [(100, 10), (101, 11)]).products,
        p.2 ∈ (Store.mk [1, 2] [(10, 1), (11, 2)] [(100, 10), (101, 11)]).sellers) →
      ∀ p ∈ (deleteSeller ⟨[1, 2], [(10, 1), (11, 2)], [(100, 10), (101, 11)]⟩ 1).products,
        p.2 ∈ (deleteSeller ⟨[1, 2], [(10, 1), (11, 2)], [(100, 10), (101, 11)]⟩ 1).sellers) :=
  deleteSeller_no_orphans ⟨[1, 2], [(10, 1), (11, 2)], [(100, 10), (101, 11)]⟩ 1
    (by decide)

/-- C8: `Customer.username` is declared `editable=False`, so an update
writes every editable field and leaves the stored username unchanged. -/
theorem customer_username_immutable (c : Customer) (u : CustomerUpdate) :
    (updateCustomer c u).username = c.username ∧
    (updateCustomer c u).first_name = u.first_name ∧
    (updateCustomer c u).phone = u.phone :=
  ⟨rfl, rfl, rfl⟩

/-- C9: `Order.status` is a flat six-value enum (stored values Ca, Pn, Co,
P, S, R; the source spells the last label "Recieved") defaulting to Pending,
and an update from any current status to any requested status is accepted
and stores the requested value. -/
theorem order_status_flat_enum :
    (∀ (o : Order) (s : OrderStatus), (setStatus o s).status = s) ∧
    orderDefaultStatus = OrderStatus.Pending ∧
    OrderStatus.Pending.dbValue = "Pn" ∧
    (∀ s : OrderStatus, s ∈ allStatuses) ∧
    allStatuses.length = 6 ∧
    allStatuses.Nodup := by
  refine ⟨fun o s => rfl, rfl, rfl, ?_, rfl, by decide⟩
  intro s
  cases s <;> decide

end Shop
